import Mathlib

/-!
Verification development for the pyodhean district-heating network optimizer.

The Python source (pyodhean/model.py, pyodhean/interface.py, pyodhean/defaults.py)
assembles a nonlinear optimization problem.  We shallowly embed the assembly-time
data (parameter tables, variable declarations with bounds, constraint rules) and
prove properties of the assembled constraint system.

Conventions of the embedding:
* Python float literals and float arithmetic are idealized as exact rationals;
  the constant `math.pi` is embedded as the exact rational value of the IEEE-754
  binary64 float that Python stores for it.
* Python dicts become association lists, dict lookup becomes `alookup`
  (returning `Option`, `none` modelling a KeyError).
* pyomo constraint rules become `Prop`-valued functions translated expression
  by expression from the source rules; chained comparisons `a <= b <= c`
  become conjunctions.
* pyomo `Var` declarations (initial value, bounds) become `VarDecl` records.
-/

namespace PyODHEAN

/-- Value of `math.pi` as stored in a Python binary64 float
(884279719003555 / 2 ^ 48), used by model.py via `from math import pi`. -/
def pi : ℚ := 884279719003555 / 281474976710656

/-- Association-list lookup: Python dict access `d[k]`; `none` models a KeyError. -/
def alookup {κ : Type} [DecidableEq κ] (d : List (κ × ℚ)) (k : κ) : Option ℚ :=
  match d with
  | [] => none
  | (k', v) :: rest => if k' = k then some v else alookup rest k

/-- General parameters of `Model.def_problem` that the pipe-related declarations
depend on (a fragment of the full parameter set, each field one pyomo Param). -/
structure Params where
  rho : ℚ
  V_min : ℚ
  V_max : ℚ
  Dint_min : ℚ
  Dint_max : ℚ
  tk_insul : ℚ
  tk_pipe : ℚ

/-- `calcul_M_max`: maximal mass flow, `V_max * rho * pi * Dint_max ** 2 / 4`. -/
def Params.M_max (p : Params) : ℚ := p.V_max * p.rho * pi * p.Dint_max ^ 2 / 4

/-- `M_min` pyomo Param, initialized to the constant 0. -/
def M_min : ℚ := 0

/-- `calcul_M_bigM`: `1000 * M_max`. -/
def Params.M_bigM (p : Params) : ℚ := 1000 * p.M_max

/-- The values the default table (defaults.py) assigns to the fields of `Params`. -/
def defaultParams : Params :=
  { rho := 974, V_min := 1/10, V_max := 3, Dint_min := 1/100, Dint_max := 25/100,
    tk_insul := 276/10000, tk_pipe := 25/1000 }

/-- A pyomo `Var` declaration: lower bound, upper bound, initial value. -/
structure VarDecl where
  lb : ℚ
  ub : ℚ
  init : ℚ
deriving DecidableEq

/-- Declaration of `V_linePC` in `def_problem`:
`initialize=(V_min + V_max) / 2, bounds=(0, V_max)`. -/
def V_linePC_decl (p : Params) : VarDecl :=
  { lb := 0, ub := p.V_max, init := (p.V_min + p.V_max) / 2 }

/-- Declaration of `V_lineCP`: `initialize=(V_min + V_max) / 2, bounds=(0, V_max)`. -/
def V_lineCP_decl (p : Params) : VarDecl :=
  { lb := 0, ub := p.V_max, init := (p.V_min + p.V_max) / 2 }

/-- Declaration of `V_lineCC_parallel`: same initializer and bounds. -/
def V_lineCC_parallel_decl (p : Params) : VarDecl :=
  { lb := 0, ub := p.V_max, init := (p.V_min + p.V_max) / 2 }

/-- Declaration of `V_lineCC_return`: same initializer and bounds. -/
def V_lineCC_return_decl (p : Params) : VarDecl :=
  { lb := 0, ub := p.V_max, init := (p.V_min + p.V_max) / 2 }

/-- Declaration of `M_hx` (one Var per consumer j, but the declaration does not
depend on j): `initialize=M_min, bounds=(M_min, M_max)`. -/
def M_hx_decl (p : Params) : VarDecl := { lb := M_min, ub := p.M_max, init := M_min }

/-- Declaration of `M_supply`: `initialize=M_min, bounds=(M_min, M_max)`. -/
def M_supply_decl (p : Params) : VarDecl := { lb := M_min, ub := p.M_max, init := M_min }

/-- Declaration of `M_return`: `initialize=M_min, bounds=(M_min, M_max)`. -/
def M_return_decl (p : Params) : VarDecl := { lb := M_min, ub := p.M_max, init := M_min }

/-- A consumption table with a demand-free node: `H_req` of node C2 is 0
(zero demand is legal and denotes a pass-through node). -/
def H_req_ex : String → ℚ := fun s => if s = "C2" then 0 else 80

/-! ## Parameter resolution (defaults.py, interface.py, def_problem) -/

/-- DEFAULT_PARAMETERS from defaults.py (decimal literals as exact rationals). -/
def DEFAULT_PARAMETERS : List (String × ℚ) :=
  [("C_tr_unit", 800), ("period", 5808), ("depreciation_period", 15),
   ("rate_i_pump", 4/100), ("Eff_pump", 7/10), ("T_hx_pinch", 5), ("K_hx", 20),
   ("Cp", 4196/1000), ("C_pump_unit", 11/100), ("mu", 354/1000000), ("rho", 974),
   ("alpha", 175/100), ("beta", -125/100), ("C_pipe_unit_a", 3722/10000),
   ("C_pipe_unit_b", 1248/100), ("C_hx_unit_a", 53/10), ("C_hx_unit_b", 5045),
   ("rate_a", 4/100), ("T_ext", 15), ("lambda_insul", 3/100), ("lambda_soil", 14/10),
   ("z_pipe", 4/10), ("epsilon", 1/1000000000), ("tk_insul", 276/10000),
   ("tk_pipe", 25/1000), ("DP_hx_unit", 20), ("V_min", 1/10), ("V_max", 3),
   ("P_min", 120), ("P_max", 500), ("Dint_max", 25/100), ("Dint_min", 1/100),
   ("Dist_max_autorisee", 1000)]

/-- The general-parameter keys `Model.def_problem` reads with plain dict access
`general_parameters[key]`, in source order. -/
def def_problem_required_keys : List String :=
  ["C_tr_unit", "period", "depreciation_period", "rate_i_pump", "Eff_pump",
   "T_hx_pinch", "K_hx", "Cp", "C_pump_unit", "mu", "rho", "alpha", "beta",
   "C_pipe_unit_a", "C_pipe_unit_b", "C_hx_unit_a", "C_hx_unit_b", "rate_a",
   "T_ext", "lambda_insul", "lambda_soil", "z_pipe", "epsilon", "tk_insul",
   "tk_pipe", "DP_hx_unit", "V_min", "V_max", "P_min", "P_max", "Dint_max",
   "Dint_min", "Dist_max_autorisee"]

/-- `JSONInterface._define_problem` passes `json_input.get('parameters', {})`
through unchanged (interface.py line 85); nothing is merged in. -/
def define_problem_general_parameters (parameters : Option (List (String × ℚ))) :
    List (String × ℚ) :=
  parameters.getD []

/-- `Model.def_problem` reading its general parameters: every required key is
read with `general_parameters[key]`; a missing key is a KeyError (`none`).
The result is the parameter set actually used to build the problem. -/
def def_problem_read_params (gp : List (String × ℚ)) : Option (List (String × ℚ)) :=
  if def_problem_required_keys.all (fun k => (alookup gp k).isSome) then
    some (def_problem_required_keys.map (fun k => (k, (alookup gp k).getD 0)))
  else none

/-! ## Topology builder (`Model.def_configuration`) -/

/-- The `configuration` argument of `Model.__init__`, keys of the pipe tables
being ordered pairs of node identifiers. -/
structure Configuration where
  technos_per_prod : List ((String × String) × ℚ)
  prod_cons_pipes : List ((String × String) × ℚ)
  cons_cons_pipes : List ((String × String) × ℚ)

/-- `table_Y_linePC = configuration['prod_cons_pipes']` (model.py line 109):
the supplied table is used verbatim as the PC existence table. -/
def table_Y_linePC (c : Configuration) : List ((String × String) × ℚ) :=
  c.prod_cons_pipes

/-- `table_Y_lineCP`: key-transposed copy of `table_Y_linePC`. -/
def table_Y_lineCP (c : Configuration) : List ((String × String) × ℚ) :=
  (table_Y_linePC c).map (fun e => ((e.1.2, e.1.1), e.2))

/-- `table_Y_lineCC_parallel = configuration['cons_cons_pipes']`, verbatim. -/
def table_Y_lineCC_parallel (c : Configuration) : List ((String × String) × ℚ) :=
  c.cons_cons_pipes

/-- `table_Y_lineCC_return`: key-transposed copy of `table_Y_lineCC_parallel`. -/
def table_Y_lineCC_return (c : Configuration) : List ((String × String) × ℚ) :=
  (table_Y_lineCC_parallel c).map (fun e => ((e.1.2, e.1.1), e.2))

/-- The configuration built in tests/test_model.py (prod_cons_pipes and
cons_cons_pipes carry pipe lengths; no technos_per_prod key is supplied). -/
def testConfiguration : Configuration :=
  { technos_per_prod := [],
    prod_cons_pipes := [(("P1", "C1"), 10), (("P1", "C2"), 0)],
    cons_cons_pipes := [(("C1", "C1"), 0), (("C1", "C2"), 100),
                        (("C2", "C1"), 0), (("C2", "C2"), 0)] }

/-! ## Hardcoded length tables of `Model.def_problem` (model.py lines 374-409) -/

/-- `table_L_PC` literal of def_problem. -/
def table_L_PC : List ((String × String) × ℚ) := [(("P1", "C1"), 10), (("P1", "C2"), 0)]

/-- `table_L_CP` literal of def_problem. -/
def table_L_CP : List ((String × String) × ℚ) := [(("C1", "P1"), 10), (("C2", "P1"), 0)]

/-- `table_L_CC_parallel` literal of def_problem. -/
def table_L_CC_parallel : List ((String × String) × ℚ) :=
  [(("C1", "C1"), 0), (("C1", "C2"), 100), (("C2", "C1"), 0), (("C2", "C2"), 0)]

/-- `table_L_CC_return` literal of def_problem. -/
def table_L_CC_return : List ((String × String) × ℚ) :=
  [(("C1", "C1"), 0), (("C1", "C2"), 0), (("C2", "C1"), 100), (("C2", "C2"), 0)]

/-- The `L_PC` table def_problem builds, as a function of the model inputs it
has access to: the literal `table_L_PC`; the configuration (the user-supplied
pipe lengths) is not consulted. -/
def def_problem_table_L_PC (_configuration : Configuration) :
    List ((String × String) × ℚ) := table_L_PC

/-- The `L_CP` table def_problem builds: the literal `table_L_CP`. -/
def def_problem_table_L_CP (_configuration : Configuration) :
    List ((String × String) × ℚ) := table_L_CP

/-- The `L_CC_parallel` table def_problem builds: the literal. -/
def def_problem_table_L_CC_parallel (_configuration : Configuration) :
    List ((String × String) × ℚ) := table_L_CC_parallel

/-- The `L_CC_return` table def_problem builds: the literal. -/
def def_problem_table_L_CC_return (_configuration : Configuration) :
    List ((String × String) × ℚ) := table_L_CC_return

/-- pyomo Param construction `pe.Param(rows, cols, initialize=table)`: raises
at construction when a key of the initializer dict is not in the index set. -/
def paramInitOk (rows cols : List String) (table : List ((String × String) × ℚ)) : Bool :=
  table.all fun e => rows.contains e.1.1 && cols.contains e.1.2

/-- The cost and length constraints iterate over the full index cross product,
so building them requires a table entry for every index pair. -/
def paramCovers (rows cols : List String) (table : List ((String × String) × ℚ)) : Bool :=
  rows.all fun a => cols.all fun b => (alookup table (a, b)).isSome

/-- Successful assembly of the four L Params and of the constraints that read
them (`cout_canalisation_tuyau`, `cout_canalisation_tranchee`, `Ex_L_tot`),
given producer index set `i` and consumer index sets `j` and `o`. -/
def L_assembly_ok (i j o : List String) : Bool :=
  paramInitOk i j table_L_PC && paramCovers i j table_L_PC &&
  paramInitOk j i table_L_CP && paramCovers j i table_L_CP &&
  paramInitOk j o table_L_CC_parallel && paramCovers j o table_L_CC_parallel &&
  paramInitOk o j table_L_CC_return && paramCovers o j table_L_CC_return

/-- `Ex_L_tot_rule` (model.py lines 1208-1218): the total network length
equals the sum of the four L tables over the full index cross products, in
source iteration order (the CC-return sum also iterates j then o); lookups
default to 0 only formally, since assembly guarantees totality. -/
def Ex_L_tot_rule (i j o : List String) (cfg : Configuration) (L_tot : ℚ) : Prop :=
  L_tot =
    (i.map fun a => (j.map fun b =>
      (alookup (def_problem_table_L_PC cfg) (a, b)).getD 0).sum).sum +
    (j.map fun b => (i.map fun a =>
      (alookup (def_problem_table_L_CP cfg) (b, a)).getD 0).sum).sum +
    (j.map fun b => (o.map fun c =>
      (alookup (def_problem_table_L_CC_parallel cfg) (b, c)).getD 0).sum).sum +
    (j.map fun b => (o.map fun c =>
      (alookup (def_problem_table_L_CC_return cfg) (b, c)).getD 0).sum).sum

/-! ## Pipe variables and existence constraints (model.py lines 411-854) -/

/-- An assembled model instance restricted to the pipe data: index sets,
general parameters, existence Params (`Y_*`), and one value per continuous
pipe variable (a candidate point the solver could return). -/
structure PipeModel where
  i : List String
  j : List String
  o : List String
  p : Params
  Y_linePC : String → String → ℚ
  Y_lineCP : String → String → ℚ
  Y_lineCC_parallel : String → String → ℚ
  Y_lineCC_return : String → String → ℚ
  V_linePC : String → String → ℚ
  V_lineCP : String → String → ℚ
  V_lineCC_parallel : String → String → ℚ
  V_lineCC_return : String → String → ℚ
  M_linePC : String → String → ℚ
  M_lineCP : String → String → ℚ
  M_lineCC_parallel : String → String → ℚ
  M_lineCC_return : String → String → ℚ
  Dint_PC : String → String → ℚ
  Dint_CP : String → String → ℚ
  Dint_CC_parallel : String → String → ℚ
  Dint_CC_return : String → String → ℚ
  Dout_PC : String → String → ℚ
  Dout_CP : String → String → ℚ
  Dout_CC_parallel : String → String → ℚ
  Dout_CC_return : String → String → ℚ

/-- `Def_Dout_PC_rule`: `Dout_PC[i, j] == Dint_PC[i, j] + tk_pipe + tk_insul`. -/
def Def_Dout_PC_rule (m : PipeModel) (i j : String) : Prop :=
  m.Dout_PC i j = m.Dint_PC i j + m.p.tk_pipe + m.p.tk_insul

/-- `Def_Dout_CP_rule`: `Dout_CP[j, i] == Dint_CP[j, i] + tk_pipe + tk_insul`. -/
def Def_Dout_CP_rule (m : PipeModel) (j i : String) : Prop :=
  m.Dout_CP j i = m.Dint_CP j i + m.p.tk_pipe + m.p.tk_insul

/-- `Def_Dout_CC_parallel_rule`. -/
def Def_Dout_CC_parallel_rule (m : PipeModel) (j o : String) : Prop :=
  m.Dout_CC_parallel j o = m.Dint_CC_parallel j o + m.p.tk_pipe + m.p.tk_insul

/-- `Def_Dout_CC_return_rule`. -/
def Def_Dout_CC_return_rule (m : PipeModel) (o j : String) : Prop :=
  m.Dout_CC_return o j = m.Dint_CC_return o j + m.p.tk_pipe + m.p.tk_insul

/-- The assembled `Def_Dout_*` constraint block, one constraint per index pair
of each of the four families. -/
def DoutSystem (m : PipeModel) : Prop :=
  (∀ i ∈ m.i, ∀ j ∈ m.j, Def_Dout_PC_rule m i j) ∧
  (∀ j ∈ m.j, ∀ i ∈ m.i, Def_Dout_CP_rule m j i) ∧
  (∀ j ∈ m.j, ∀ o ∈ m.o, Def_Dout_CC_parallel_rule m j o) ∧
  (∀ o ∈ m.o, ∀ j ∈ m.j, Def_Dout_CC_return_rule m o j)

/-- `Def_V_linePC_rule_bigM`: chained inequality
`-M_bigM*(1-Y) <= V*(rho*pi*Dint*Dint/4) - M <= M_bigM*(1-Y)` as a conjunction. -/
def Def_V_linePC_rule_bigM (m : PipeModel) (i j : String) : Prop :=
  -m.p.M_bigM * (1 - m.Y_linePC i j) ≤
      m.V_linePC i j * (m.p.rho * pi * m.Dint_PC i j * m.Dint_PC i j / 4) -
        m.M_linePC i j ∧
  m.V_linePC i j * (m.p.rho * pi * m.Dint_PC i j * m.Dint_PC i j / 4) -
        m.M_linePC i j ≤
      m.p.M_bigM * (1 - m.Y_linePC i j)

/-- `Def_V_lineCP_rule_bigM`. -/
def Def_V_lineCP_rule_bigM (m : PipeModel) (j i : String) : Prop :=
  -m.p.M_bigM * (1 - m.Y_lineCP j i) ≤
      m.V_lineCP j i * (m.p.rho * pi * m.Dint_CP j i * m.Dint_CP j i / 4) -
        m.M_lineCP j i ∧
  m.V_lineCP j i * (m.p.rho * pi * m.Dint_CP j i * m.Dint_CP j i / 4) -
        m.M_lineCP j i ≤
      m.p.M_bigM * (1 - m.Y_lineCP j i)

/-- `Def_V_lineCC_parallel_rule_bigM`. -/
def Def_V_lineCC_parallel_rule_bigM (m : PipeModel) (j o : String) : Prop :=
  -m.p.M_bigM * (1 - m.Y_lineCC_parallel j o) ≤
      m.V_lineCC_parallel j o *
        m.p.rho * pi * m.Dint_CC_parallel j o * m.Dint_CC_parallel j o / 4 -
        m.M_lineCC_parallel j o ∧
  m.V_lineCC_parallel j o *
        m.p.rho * pi * m.Dint_CC_parallel j o * m.Dint_CC_parallel j o / 4 -
        m.M_lineCC_parallel j o ≤
      m.p.M_bigM * (1 - m.Y_lineCC_parallel j o)

/-- `Def_V_lineCC_return_rule_bigM`. -/
def Def_V_lineCC_return_rule_bigM (m : PipeModel) (o j : String) : Prop :=
  -m.p.M_bigM * (1 - m.Y_lineCC_return o j) ≤
      m.V_lineCC_return o j *
        m.p.rho * pi * m.Dint_CC_return o j * m.Dint_CC_return o j / 4 -
        m.M_lineCC_return o j ∧
  m.V_lineCC_return o j *
        m.p.rho * pi * m.Dint_CC_return o j * m.Dint_CC_return o j / 4 -
        m.M_lineCC_return o j ≤
      m.p.M_bigM * (1 - m.Y_lineCC_return o j)

/-- `Ex_V_linePC_max_rule`: `V_linePC[i, j] <= V_max * Y_linePC[i, j]`. -/
def Ex_V_linePC_max_rule (m : PipeModel) (i j : String) : Prop :=
  m.V_linePC i j ≤ m.p.V_max * m.Y_linePC i j

/-- `Ex_V_linePC_min_rule`: `V_linePC[i, j] >= V_min * Y_linePC[i, j]`. -/
def Ex_V_linePC_min_rule (m : PipeModel) (i j : String) : Prop :=
  m.V_linePC i j ≥ m.p.V_min * m.Y_linePC i j

/-- `Ex_V_lineCP_max_rule`. -/
def Ex_V_lineCP_max_rule (m : PipeModel) (j i : String) : Prop :=
  m.V_lineCP j i ≤ m.p.V_max * m.Y_lineCP j i

/-- `Ex_V_lineCP_min_rule`. -/
def Ex_V_lineCP_min_rule (m : PipeModel) (j i : String) : Prop :=
  m.V_lineCP j i ≥ m.p.V_min * m.Y_lineCP j i

/-- `Ex_V_lineCC_parallel_max_rule`. -/
def Ex_V_lineCC_parallel_max_rule (m : PipeModel) (j o : String) : Prop :=
  m.V_lineCC_parallel j o ≤ m.p.V_max * m.Y_lineCC_parallel j o

/-- `Ex_V_lineCC_parallel_min_rule`. -/
def Ex_V_lineCC_parallel_min_rule (m : PipeModel) (j o : String) : Prop :=
  m.V_lineCC_parallel j o ≥ m.p.V_min * m.Y_lineCC_parallel j o

/-- `Ex_V_lineCC_return_max_rule`. -/
def Ex_V_lineCC_return_max_rule (m : PipeModel) (o j : String) : Prop :=
  m.V_lineCC_return o j ≤ m.p.V_max * m.Y_lineCC_return o j

/-- `Ex_V_lineCC_return_min_rule`. -/
def Ex_V_lineCC_return_min_rule (m : PipeModel) (o j : String) : Prop :=
  m.V_lineCC_return o j ≥ m.p.V_min * m.Y_lineCC_return o j

/-- `Ex_M_linePC_max_rule`: `M_linePC[i, j] <= M_max * Y_linePC[i, j]`. -/
def Ex_M_linePC_max_rule (m : PipeModel) (i j : String) : Prop :=
  m.M_linePC i j ≤ m.p.M_max * m.Y_linePC i j

/-- `Ex_M_lineCP_max_rule`. -/
def Ex_M_lineCP_max_rule (m : PipeModel) (j i : String) : Prop :=
  m.M_lineCP j i ≤ m.p.M_max * m.Y_lineCP j i

/-- `Ex_M_lineCC_parallel_max_rule`. -/
def Ex_M_lineCC_parallel_max_rule (m : PipeModel) (j o : String) : Prop :=
  m.M_lineCC_parallel j o ≤ m.p.M_max * m.Y_lineCC_parallel j o

/-- `Ex_M_lineCC_return_max_rule`. -/
def Ex_M_lineCC_return_max_rule (m : PipeModel) (o j : String) : Prop :=
  m.M_lineCC_return o j ≤ m.p.M_max * m.Y_lineCC_return o j

/-- Bound satisfaction of the velocity Vars, declared with `bounds=(0, V_max)`. -/
def V_varBounds (m : PipeModel) (v : ℚ) : Prop := 0 ≤ v ∧ v ≤ m.p.V_max

/-- Bound satisfaction of the flow Vars, declared with `bounds=(M_min, M_max)`. -/
def M_varBounds (m : PipeModel) (v : ℚ) : Prop := M_min ≤ v ∧ v ≤ m.p.M_max

/-- The assembled velocity-flow existence constraints: for every pipe family
and every index pair, the big-M inequality, the direct velocity and flow
existence bounds, and the declared variable bounds. -/
def pipeExistenceSystem (m : PipeModel) : Prop :=
  (∀ i ∈ m.i, ∀ j ∈ m.j,
    Def_V_linePC_rule_bigM m i j ∧ Ex_V_linePC_max_rule m i j ∧
    Ex_V_linePC_min_rule m i j ∧ Ex_M_linePC_max_rule m i j ∧
    V_varBounds m (m.V_linePC i j) ∧ M_varBounds m (m.M_linePC i j)) ∧
  (∀ j ∈ m.j, ∀ i ∈ m.i,
    Def_V_lineCP_rule_bigM m j i ∧ Ex_V_lineCP_max_rule m j i ∧
    Ex_V_lineCP_min_rule m j i ∧ Ex_M_lineCP_max_rule m j i ∧
    V_varBounds m (m.V_lineCP j i) ∧ M_varBounds m (m.M_lineCP j i)) ∧
  (∀ j ∈ m.j, ∀ o ∈ m.o,
    Def_V_lineCC_parallel_rule_bigM m j o ∧ Ex_V_lineCC_parallel_max_rule m j o ∧
    Ex_V_lineCC_parallel_min_rule m j o ∧ Ex_M_lineCC_parallel_max_rule m j o ∧
    V_varBounds m (m.V_lineCC_parallel j o) ∧ M_varBounds m (m.M_lineCC_parallel j o)) ∧
  (∀ o ∈ m.o, ∀ j ∈ m.j,
    Def_V_lineCC_return_rule_bigM m o j ∧ Ex_V_lineCC_return_max_rule m o j ∧
    Ex_V_lineCC_return_min_rule m o j ∧ Ex_M_lineCC_return_max_rule m o j ∧
    V_varBounds m (m.V_lineCC_return o j) ∧ M_varBounds m (m.M_lineCC_return o j))

/-- A concrete satisfying model point: no pipe exists, all velocities and
flows zero, diameters at their minimum, outer diameters consistent. -/
def mW : PipeModel :=
  { i := ["P1"], j := ["C1", "C2"], o := ["C1", "C2"], p := defaultParams,
    Y_linePC := fun _ _ => 0, Y_lineCP := fun _ _ => 0,
    Y_lineCC_parallel := fun _ _ => 0, Y_lineCC_return := fun _ _ => 0,
    V_linePC := fun _ _ => 0, V_lineCP := fun _ _ => 0,
    V_lineCC_parallel := fun _ _ => 0, V_lineCC_return := fun _ _ => 0,
    M_linePC := fun _ _ => 0, M_lineCP := fun _ _ => 0,
    M_lineCC_parallel := fun _ _ => 0, M_lineCC_return := fun _ _ => 0,
    Dint_PC := fun _ _ => 1/100, Dint_CP := fun _ _ => 1/100,
    Dint_CC_parallel := fun _ _ => 1/100, Dint_CC_return := fun _ _ => 1/100,
    Dout_PC := fun _ _ => 313/5000, Dout_CP := fun _ _ => 313/5000,
    Dout_CC_parallel := fun _ _ => 313/5000, Dout_CC_return := fun _ _ => 313/5000 }

/-! ## Heat-exchanger constraints (model.py lines 1068-1138) -/

/-- An assembled model instance restricted to the per-consumer exchanger data:
consumer index set, the consumer Params, and one value per exchanger variable.
Temperatures are real-valued because `diffTemplog_rule` takes a real power. -/
structure HXModel where
  j : List String
  T_req_out : String → ℝ
  T_req_in : String → ℝ
  H_req : String → ℚ
  T_hx_pinch : ℝ
  T_hx_in : String → ℝ
  T_hx_out : String → ℝ
  DT1 : String → ℝ
  DT2 : String → ℝ
  DTLM : String → ℝ
  H_hx : String → ℚ

/-- `bilan_DT1_rule`: `DT1[j] == T_hx_in[j] - T_req_out[j]`. -/
def bilan_DT1_rule (m : HXModel) (j : String) : Prop :=
  m.DT1 j = m.T_hx_in j - m.T_req_out j

/-- `bilan_DT2_rule`: `DT2[j] == T_hx_out[j] - T_req_in[j]`. -/
def bilan_DT2_rule (m : HXModel) (j : String) : Prop :=
  m.DT2 j = m.T_hx_out j - m.T_req_in j

/-- `bilan_DT1_pinch_rule`: `DT1[j] >= T_hx_pinch`. -/
def bilan_DT1_pinch_rule (m : HXModel) (j : String) : Prop :=
  m.DT1 j ≥ m.T_hx_pinch

/-- `bilan_DT2_pinch_rule`: `DT2[j] >= T_hx_pinch`. -/
def bilan_DT2_pinch_rule (m : HXModel) (j : String) : Prop :=
  m.DT2 j ≥ m.T_hx_pinch

/-- `diffTemplog_rule`:
`DTLM[j] == (DT1[j] * DT2[j] * 0.5 * (DT1[j] + DT2[j])) ** (1 / 3)`,
a real power with exponent one third. -/
def diffTemplog_rule (m : HXModel) (j : String) : Prop :=
  m.DTLM j = (m.DT1 j * m.DT2 j * (0.5 : ℝ) * (m.DT1 j + m.DT2 j)) ^ ((1 : ℝ) / 3)

/-- The assembled exchanger temperature constraint block. -/
def hxThermalSystem (m : HXModel) : Prop :=
  (∀ j ∈ m.j, bilan_DT1_rule m j) ∧
  (∀ j ∈ m.j, bilan_DT2_rule m j) ∧
  (∀ j ∈ m.j, bilan_DT1_pinch_rule m j) ∧
  (∀ j ∈ m.j, bilan_DT2_pinch_rule m j) ∧
  (∀ j ∈ m.j, diffTemplog_rule m j)

/-- `H_hx_borne`: the bounds function of the `H_hx` Var, `(0, H_req[j])`. -/
def H_hx_borne (m : HXModel) (j : String) : ℚ × ℚ := (0, m.H_req j)

/-- Bound satisfaction of the `H_hx` Var under its declared bounds. -/
def H_hx_varBounds (m : HXModel) (j : String) : Prop :=
  (H_hx_borne m j).1 ≤ m.H_hx j ∧ m.H_hx j ≤ (H_hx_borne m j).2

/-- `contrainte_appro_rule`: `H_hx[j] == H_req[j]` (an equality constraint). -/
def contrainte_appro_rule (m : HXModel) (j : String) : Prop :=
  m.H_hx j = m.H_req j

/-- The assembled demand-satisfaction block: one equality per consumer. -/
def contrainte_appro_system (m : HXModel) : Prop :=
  ∀ j ∈ m.j, contrainte_appro_rule m j

/-- A concrete satisfying exchanger point: both pinch deltas equal 15, so the
cube-root expression evaluates to `(15 ^ 3) ^ (1/3) = 15`. -/
def hxW : HXModel :=
  { j := ["C1", "C2"], T_req_out := fun _ => 80, T_req_in := fun _ => 60,
    H_req := fun _ => 80, T_hx_pinch := 5,
    T_hx_in := fun _ => 95, T_hx_out := fun _ => 75,
    DT1 := fun _ => 15, DT2 := fun _ => 15, DTLM := fun _ => 15,
    H_hx := fun _ => 80 }

/-! ## JSON interface (interface.py) -/

/-- Node keys: `_id2str` renders the coordinate 2-vector as the string `x_y`;
the rendering is injective on coordinate pairs, so we keep the pair itself. -/
abbrev NodeId := ℚ × ℚ

/-- One technology as supplied in the JSON input. -/
structure TechnoJSON where
  efficiency : ℚ
  t_out_max : ℚ
  t_in_min : ℚ
  production_unitary_cost : ℚ
  energy_unitary_cost : ℚ
  energy_cost_inflation_rate : ℚ
  coverage_rate : Option ℚ

/-- The per-technology dict `_define_problem` builds. -/
structure TechnoModel where
  Eff : ℚ
  T_prod_out_max : ℚ
  T_prod_in_min : ℚ
  C_Hprod_unit : ℚ
  C_heat_unit : ℚ
  rate_i : ℚ
  coverage_rate : Option ℚ

/-- The field renaming applied to each technology in `_define_problem`. -/
def techno_of_json (t : TechnoJSON) : TechnoModel :=
  { Eff := t.efficiency, T_prod_out_max := t.t_out_max, T_prod_in_min := t.t_in_min,
    C_Hprod_unit := t.production_unitary_cost, C_heat_unit := t.energy_unitary_cost,
    rate_i := t.energy_cost_inflation_rate, coverage_rate := t.coverage_rate }

/-- A production node of the JSON input. -/
structure ProdNodeJSON where
  id : NodeId
  technologies : List (String × TechnoJSON)

/-- A consumption node of the JSON input. -/
structure ConsNodeJSON where
  id : NodeId
  kW : ℚ
  t_in : ℚ
  t_out : ℚ

/-- A link of the JSON input. -/
structure LinkJSON where
  length : ℚ
  source : NodeId
  target : NodeId

/-- The JSON problem description consumed by `JSONInterface.solve`. -/
structure JSONInput where
  production : List ProdNodeJSON
  consumption : List ConsNodeJSON
  links : List LinkJSON
  parameters : Option (List (String × ℚ))

/-- The per-consumer dict `_define_problem` builds. -/
structure ConsModel where
  H_req : ℚ
  T_req_out : ℚ
  T_req_in : ℚ

/-- The configuration dict `_define_problem` builds: exactly the two keys
`prod_cons_pipes` and `cons_cons_pipes` (no `technos_per_prod` key, which
`Model.def_configuration` would additionally require). -/
structure InterfaceConfiguration where
  prod_cons_pipes : List ((NodeId × NodeId) × ℚ)
  cons_cons_pipes : List ((NodeId × NodeId) × ℚ)

/-- The problem dict returned by `_define_problem`. -/
structure ProblemDict where
  production : List (NodeId × List (String × TechnoModel))
  consumption : List (NodeId × ConsModel)
  configuration : InterfaceConfiguration
  general_parameters : List (String × ℚ)

/-- The keys of the dict `_define_problem` returns (interface.py lines 87-92). -/
def define_problem_result_keys : List String :=
  ["production", "consumption", "configuration", "general_parameters"]

/-- The parameter names of `Model.__init__` (model.py lines 14-15), all
required and positional. -/
def Model_init_params : List String :=
  ["general_parameters", "technologies", "production", "consumption", "configuration"]

/-- Python dict `setdefault`: insert the pair only when the key is absent. -/
def setdefault (d : List ((NodeId × NodeId) × ℚ)) (k : NodeId × NodeId) (v : ℚ) :
    List ((NodeId × NodeId) × ℚ) :=
  if (alookup d k).isSome then d else d ++ [(k, v)]

/-- The link loop of `_define_problem`: route each link into `prod_cons_pipes`
or `cons_cons_pipes` according to its source id, raising ValueError when the
source is in neither node set. -/
def routeLinks (prodIds consIds : List NodeId) (links : List LinkJSON) :
    Except String (List ((NodeId × NodeId) × ℚ) × List ((NodeId × NodeId) × ℚ)) :=
  match links with
  | [] => .ok ([], [])
  | link :: rest =>
    if prodIds.contains link.source then
      match routeLinks prodIds consIds rest with
      | .error e => .error e
      | .ok (pc, cc) => .ok (((link.source, link.target), link.length) :: pc, cc)
    else if consIds.contains link.source then
      match routeLinks prodIds consIds rest with
      | .error e => .error e
      | .ok (pc, cc) => .ok (pc, ((link.source, link.target), link.length) :: cc)
    else .error "ValueError: Link with unknown source."

/-- The defaulting loops of `_define_problem`: every (producer, consumer) and
(consumer, consumer) ordered pair gets a length, defaulting to 0. -/
def defaultPairs (prodIds consIds : List NodeId)
    (pc cc : List ((NodeId × NodeId) × ℚ)) :
    List ((NodeId × NodeId) × ℚ) × List ((NodeId × NodeId) × ℚ) :=
  (consIds.foldl (fun pc cons =>
      prodIds.foldl (fun pc prod => setdefault pc (prod, cons) 0) pc) pc,
   consIds.foldl (fun cc cons =>
      consIds.foldl (fun cc other => setdefault cc (cons, other) 0) cc) cc)

/-- `JSONInterface._define_problem`. -/
def JSONInterface_define_problem (input : JSONInput) : Except String ProblemDict :=
  let production := input.production.map fun n =>
    (n.id, n.technologies.map fun t => (t.1, techno_of_json t.2))
  let consumption := input.consumption.map fun n =>
    (n.id, ConsModel.mk n.kW n.t_out n.t_in)
  match routeLinks (production.map (·.1)) (consumption.map (·.1)) input.links with
  | .error e => .error e
  | .ok (pc, cc) =>
    let pipes := defaultPairs (production.map (·.1)) (consumption.map (·.1)) pc cc
    .ok { production := production, consumption := consumption,
          configuration := { prod_cons_pipes := pipes.1, cons_cons_pipes := pipes.2 },
          general_parameters := input.parameters.getD [] }

/-- Outcome of a call to `JSONInterface.solve`: either a returned status
string or a raised exception. -/
inductive SolveOutcome
  | returned (status : String)
  | raised (exc : String)
deriving DecidableEq

/-- Python call `Model(**problem)`: it succeeds only when every required
positional parameter of `Model.__init__` receives a value from the keyword
dict, whose keys are `define_problem_result_keys`. -/
def Model_kwargs_call_ok : Bool :=
  Model_init_params.all (define_problem_result_keys.contains ·)

/-- `JSONInterface.solve`: builds the problem dict, then calls
`Model(**problem)`.  The keyword dict never carries a `technologies` key, so
the call raises TypeError.  (The if-branch is unreachable: were the call to
succeed, `Model.def_configuration` would next raise a KeyError because the
configuration dict built by `_define_problem` has no `technos_per_prod` key,
and `Model.solve` returns `None`, which `_parse_result` cannot consume.) -/
def JSONInterface_solve (input : JSONInput) : SolveOutcome :=
  match JSONInterface_define_problem input with
  | .error e => .raised e
  | .ok _problem =>
    if Model_kwargs_call_ok then
      .raised "KeyError: technos_per_prod"
    else
      .raised "TypeError: Model.__init__ missing 1 required positional argument: technologies"

/-- End-to-end scenario A input (tests/conftest.py `json_input`): one producer
at the origin with two technologies of efficiency 0.9 and unit costs 800 and
1000, two consumers of 80 kW at 60 to 80 degC, links of length 10 and 100. -/
def scenarioA : JSONInput :=
  { production :=
      [{ id := (0, 0),
         technologies :=
           [("k1", { efficiency := 9/10, t_out_max := 100, t_in_min := 30,
                     production_unitary_cost := 800, energy_unitary_cost := 8/100,
                     energy_cost_inflation_rate := 4/100, coverage_rate := some (8/10) }),
            ("k2", { efficiency := 9/10, t_out_max := 100, t_in_min := 30,
                     production_unitary_cost := 1000, energy_unitary_cost := 8/100,
                     energy_cost_inflation_rate := 4/100, coverage_rate := none })] }],
    consumption :=
      [{ id := (2, 5), kW := 80, t_in := 60, t_out := 80 },
       { id := (30, 50), kW := 80, t_in := 60, t_out := 80 }],
    links :=
      [{ length := 10, source := (0, 0), target := (2, 5) },
       { length := 100, source := (2, 5), target := (30, 50) }],
    parameters := some [("diameter_int_max", 1/5), ("speed_max", 5/2)] }

/-! ## Theorems -/

/-- Algebra of the big-M existence gate on one pipe: the two-sided inequality
plus the direct existence bounds and the declared variable bounds force the
velocity-flow equality when the indicator is 1 and both variables to zero when
it is 0. -/
theorem bigM_velocity_flow_gate (Mb Vmax Vmin Mmax A Y V M : ℚ)
    (h1 : -Mb * (1 - Y) ≤ V * A - M) (h2 : V * A - M ≤ Mb * (1 - Y))
    (hVmax : V ≤ Vmax * Y) (_hVmin : V ≥ Vmin * Y) (hMmax : M ≤ Mmax * Y)
    (hV0 : 0 ≤ V) (hM0 : 0 ≤ M) :
    (Y = 1 → M = V * A) ∧ (Y = 0 → V = 0 ∧ M = 0) := by
  constructor
  · intro hY
    subst hY
    have e1 : -Mb * (1 - (1 : ℚ)) = 0 := by ring
    have e2 : Mb * (1 - (1 : ℚ)) = 0 := by ring
    rw [e1] at h1
    rw [e2] at h2
    linarith
  · intro hY
    subst hY
    have e3 : Vmax * (0 : ℚ) = 0 := by ring
    have e4 : Mmax * (0 : ℚ) = 0 := by ring
    rw [e3] at hVmax
    rw [e4] at hMmax
    constructor <;> linarith

/-- Claim C10: every feasible point of the assembled system satisfies, for each
of the four pipe families and every index pair, the equality
Dout = Dint + tk_pipe + tk_insul. -/
theorem Dout_equals_Dint_plus_thickness (m : PipeModel) (h : DoutSystem m) :
    (∀ i ∈ m.i, ∀ j ∈ m.j,
      m.Dout_PC i j = m.Dint_PC i j + m.p.tk_pipe + m.p.tk_insul) ∧
    (∀ j ∈ m.j, ∀ i ∈ m.i,
      m.Dout_CP j i = m.Dint_CP j i + m.p.tk_pipe + m.p.tk_insul) ∧
    (∀ j ∈ m.j, ∀ o ∈ m.o,
      m.Dout_CC_parallel j o = m.Dint_CC_parallel j o + m.p.tk_pipe + m.p.tk_insul) ∧
    (∀ o ∈ m.o, ∀ j ∈ m.j,
      m.Dout_CC_return o j = m.Dint_CC_return o j + m.p.tk_pipe + m.p.tk_insul) :=
  h

/-- The concrete model point mW satisfies the Def_Dout constraint block. -/
theorem mW_DoutSystem : DoutSystem mW := by
  refine ⟨?_, ?_, ?_, ?_⟩ <;>
  · intro a _ b _
    norm_num [mW, defaultParams, Def_Dout_PC_rule, Def_Dout_CP_rule,
      Def_Dout_CC_parallel_rule, Def_Dout_CC_return_rule]

/-- Witness for claim C10 at the concrete point mW and the pair (P1, C1). -/
theorem Dout_equals_Dint_plus_thickness_witness :
    DoutSystem mW ∧
    mW.Dout_PC "P1" "C1" = mW.Dint_PC "P1" "C1" + mW.p.tk_pipe + mW.p.tk_insul :=
  ⟨mW_DoutSystem,
   (Dout_equals_Dint_plus_thickness mW mW_DoutSystem).1 "P1" (by decide) "C1" (by decide)⟩

/-- Claim C7: the H_hx Var of each consumer is declared with bounds
(0, H_req[j]), and the assembled equality constraint contrainte_appro forces
H_hx[j] = H_req[j] at every feasible point, so demand is met exactly. -/
theorem H_hx_decl_and_demand_met (m : HXModel) :
    (∀ j, H_hx_borne m j = (0, m.H_req j)) ∧
    (contrainte_appro_system m → ∀ j ∈ m.j, m.H_hx j = m.H_req j) :=
  ⟨fun _ => rfl, fun h j hj => h j hj⟩

/-- Witness for claim C7 at the concrete point hxW and consumer C1. -/
theorem H_hx_decl_and_demand_met_witness :
    contrainte_appro_system hxW ∧ hxW.H_hx "C1" = hxW.H_req "C1" :=
  ⟨fun _ _ => rfl,
   (H_hx_decl_and_demand_met hxW).2 (fun _ _ => rfl) "C1" (by decide)⟩

/-- Claim C8 counterexample: node C2 of the example consumption table has zero
demand, yet the code declares M_hx, M_supply and M_return with the generic
upper bound M_max (nonzero at the default parameters), not upper bound 0: the
declaration (model.py lines 494-518) does not depend on the consumer at all. -/
theorem consumer_flow_decl_not_pinned_counterexample :
    H_req_ex "C2" = 0 ∧
    (M_hx_decl defaultParams).ub ≠ 0 ∧
    (M_supply_decl defaultParams).ub ≠ 0 ∧
    (M_return_decl defaultParams).ub ≠ 0 := by
  refine ⟨rfl, ?_, ?_, ?_⟩ <;>
    norm_num [M_hx_decl, M_supply_decl, M_return_decl, defaultParams, Params.M_max, pi]

/-- Claim C8 (amended): M_hx, M_supply and M_return are declared with the same
bounds (M_min, M_max) = (0, M_max) for every consumer, regardless of its
demand; whenever M_max is positive the declared range of a demand-free node
still admits nonzero flow (the variable is not pinned to zero). -/
theorem consumer_flow_decl_generic (p : Params) :
    M_hx_decl p = ⟨M_min, p.M_max, M_min⟩ ∧
    M_supply_decl p = ⟨M_min, p.M_max, M_min⟩ ∧
    M_return_decl p = ⟨M_min, p.M_max, M_min⟩ ∧
    (0 < p.M_max →
      ∃ x : ℚ, x ≠ 0 ∧ (M_hx_decl p).lb ≤ x ∧ x ≤ (M_hx_decl p).ub) := by
  refine ⟨rfl, rfl, rfl, fun h => ⟨p.M_max, ?_, ?_, le_refl _⟩⟩
  · exact ne_of_gt h
  · simpa [M_hx_decl, M_min] using le_of_lt h

/-- Witness for the amended claim C8 at the default parameters. -/
theorem consumer_flow_decl_generic_witness :
    0 < defaultParams.M_max ∧
    ∃ x : ℚ, x ≠ 0 ∧ (M_hx_decl defaultParams).lb ≤ x ∧
      x ≤ (M_hx_decl defaultParams).ub :=
  ⟨by norm_num [defaultParams, Params.M_max, pi],
   (consumer_flow_decl_generic defaultParams).2.2.2
     (by norm_num [defaultParams, Params.M_max, pi])⟩

/-- Claim C9 counterexample: at the default parameters (V_min = 0.1) the four
velocity Vars are declared with lower bound 0, not V_min (model.py lines
414-429 declare bounds=(0, V_max)). -/
theorem velocity_decl_lb_counterexample :
    (V_linePC_decl defaultParams).lb ≠ defaultParams.V_min ∧
    (V_lineCP_decl defaultParams).lb ≠ defaultParams.V_min ∧
    (V_lineCC_parallel_decl defaultParams).lb ≠ defaultParams.V_min ∧
    (V_lineCC_return_decl defaultParams).lb ≠ defaultParams.V_min := by
  refine ⟨?_, ?_, ?_, ?_⟩ <;>
    norm_num [V_linePC_decl, V_lineCP_decl, V_lineCC_parallel_decl,
      V_lineCC_return_decl, defaultParams]

/-- Claim C9 (amended): each of the four velocity Vars is declared with lower
bound 0 and upper bound V_max (initial value (V_min + V_max) / 2); the
V_min lower bound is enforced only through the Ex_V existence constraints. -/
theorem velocity_decl_bounds (p : Params) :
    V_linePC_decl p = ⟨0, p.V_max, (p.V_min + p.V_max) / 2⟩ ∧
    V_lineCP_decl p = ⟨0, p.V_max, (p.V_min + p.V_max) / 2⟩ ∧
    V_lineCC_parallel_decl p = ⟨0, p.V_max, (p.V_min + p.V_max) / 2⟩ ∧
    V_lineCC_return_decl p = ⟨0, p.V_max, (p.V_min + p.V_max) / 2⟩ :=
  ⟨rfl, rfl, rfl, rfl⟩

/-- Claim C1: for every assembled problem, every pipe family and every ordered
pair in its index set, the system contains the two-sided big-M inequality
-M_bigM*(1-Y) <= V*rho*pi*Dint^2/4 - M <= M_bigM*(1-Y) together with the
direct bounds V <= V_max*Y, V >= V_min*Y and M <= M_max*Y; consequently at
every feasible point with Y = 1 the flow equals velocity*rho*pi*Dint^2/4
exactly, and with Y = 0 both the velocity and the flow are exactly zero. -/
theorem pipe_bigM_velocity_flow_gating (m : PipeModel) (h : pipeExistenceSystem m) :
    (∀ a ∈ m.i, ∀ b ∈ m.j,
      (-m.p.M_bigM * (1 - m.Y_linePC a b) ≤
          m.V_linePC a b * m.p.rho * pi * m.Dint_PC a b ^ 2 / 4 - m.M_linePC a b ∧
        m.V_linePC a b * m.p.rho * pi * m.Dint_PC a b ^ 2 / 4 - m.M_linePC a b ≤
          m.p.M_bigM * (1 - m.Y_linePC a b)) ∧
      m.V_linePC a b ≤ m.p.V_max * m.Y_linePC a b ∧
      m.V_linePC a b ≥ m.p.V_min * m.Y_linePC a b ∧
      m.M_linePC a b ≤ m.p.M_max * m.Y_linePC a b ∧
      (m.Y_linePC a b = 1 →
        m.M_linePC a b = m.V_linePC a b * m.p.rho * pi * m.Dint_PC a b ^ 2 / 4) ∧
      (m.Y_linePC a b = 0 → m.V_linePC a b = 0 ∧ m.M_linePC a b = 0)) ∧
    (∀ b ∈ m.j, ∀ a ∈ m.i,
      (-m.p.M_bigM * (1 - m.Y_lineCP b a) ≤
          m.V_lineCP b a * m.p.rho * pi * m.Dint_CP b a ^ 2 / 4 - m.M_lineCP b a ∧
        m.V_lineCP b a * m.p.rho * pi * m.Dint_CP b a ^ 2 / 4 - m.M_lineCP b a ≤
          m.p.M_bigM * (1 - m.Y_lineCP b a)) ∧
      m.V_lineCP b a ≤ m.p.V_max * m.Y_lineCP b a ∧
      m.V_lineCP b a ≥ m.p.V_min * m.Y_lineCP b a ∧
      m.M_lineCP b a ≤ m.p.M_max * m.Y_lineCP b a ∧
      (m.Y_lineCP b a = 1 →
        m.M_lineCP b a = m.V_lineCP b a * m.p.rho * pi * m.Dint_CP b a ^ 2 / 4) ∧
      (m.Y_lineCP b a = 0 → m.V_lineCP b a = 0 ∧ m.M_lineCP b a = 0)) ∧
    (∀ b ∈ m.j, ∀ c ∈ m.o,
      (-m.p.M_bigM * (1 - m.Y_lineCC_parallel b c) ≤
          m.V_lineCC_parallel b c * m.p.rho * pi * m.Dint_CC_parallel b c ^ 2 / 4 -
            m.M_lineCC_parallel b c ∧
        m.V_lineCC_parallel b c * m.p.rho * pi * m.Dint_CC_parallel b c ^ 2 / 4 -
            m.M_lineCC_parallel b c ≤
          m.p.M_bigM * (1 - m.Y_lineCC_parallel b c)) ∧
      m.V_lineCC_parallel b c ≤ m.p.V_max * m.Y_lineCC_parallel b c ∧
      m.V_lineCC_parallel b c ≥ m.p.V_min * m.Y_lineCC_parallel b c ∧
      m.M_lineCC_parallel b c ≤ m.p.M_max * m.Y_lineCC_parallel b c ∧
      (m.Y_lineCC_parallel b c = 1 →
        m.M_lineCC_parallel b c =
          m.V_lineCC_parallel b c * m.p.rho * pi * m.Dint_CC_parallel b c ^ 2 / 4) ∧
      (m.Y_lineCC_parallel b c = 0 →
        m.V_lineCC_parallel b c = 0 ∧ m.M_lineCC_parallel b c = 0)) ∧
    (∀ c ∈ m.o, ∀ b ∈ m.j,
      (-m.p.M_bigM * (1 - m.Y_lineCC_return c b) ≤
          m.V_lineCC_return c b * m.p.rho * pi * m.Dint_CC_return c b ^ 2 / 4 -
            m.M_lineCC_return c b ∧
        m.V_lineCC_return c b * m.p.rho * pi * m.Dint_CC_return c b ^ 2 / 4 -
            m.M_lineCC_return c b ≤
          m.p.M_bigM * (1 - m.Y_lineCC_return c b)) ∧
      m.V_lineCC_return c b ≤ m.p.V_max * m.Y_lineCC_return c b ∧
      m.V_lineCC_return c b ≥ m.p.V_min * m.Y_lineCC_return c b ∧
      m.M_lineCC_return c b ≤ m.p.M_max * m.Y_lineCC_return c b ∧
      (m.Y_lineCC_return c b = 1 →
        m.M_lineCC_return c b =
          m.V_lineCC_return c b * m.p.rho * pi * m.Dint_CC_return c b ^ 2 / 4) ∧
      (m.Y_lineCC_return c b = 0 →
        m.V_lineCC_return c b = 0 ∧ m.M_lineCC_return c b = 0)) := by
  obtain ⟨hPC, hCP, hCCp, hCCr⟩ := h
  refine ⟨?_, ?_, ?_, ?_⟩
  · intro a ha b hb
    obtain ⟨⟨h1, h2⟩, h3, h4, h5, ⟨hV0, _⟩, ⟨hM0, _⟩⟩ := hPC a ha b hb
    have key := bigM_velocity_flow_gate m.p.M_bigM m.p.V_max m.p.V_min m.p.M_max
      (m.p.rho * pi * m.Dint_PC a b * m.Dint_PC a b / 4)
      (m.Y_linePC a b) (m.V_linePC a b) (m.M_linePC a b)
      h1 h2 h3 h4 h5 hV0 hM0
    refine ⟨⟨by linarith, by linarith⟩, h3, h4, h5, fun hY => ?_, key.2⟩
    have := key.1 hY
    linear_combination this
  · intro b hb a ha
    obtain ⟨⟨h1, h2⟩, h3, h4, h5, ⟨hV0, _⟩, ⟨hM0, _⟩⟩ := hCP b hb a ha
    have key := bigM_velocity_flow_gate m.p.M_bigM m.p.V_max m.p.V_min m.p.M_max
      (m.p.rho * pi * m.Dint_CP b a * m.Dint_CP b a / 4)
      (m.Y_lineCP b a) (m.V_lineCP b a) (m.M_lineCP b a)
      h1 h2 h3 h4 h5 hV0 hM0
    refine ⟨⟨by linarith, by linarith⟩, h3, h4, h5, fun hY => ?_, key.2⟩
    have := key.1 hY
    linear_combination this
  · intro b hb c hc
    obtain ⟨⟨h1, h2⟩, h3, h4, h5, ⟨hV0, _⟩, ⟨hM0, _⟩⟩ := hCCp b hb c hc
    have h1' : -m.p.M_bigM * (1 - m.Y_lineCC_parallel b c) ≤
        m.V_lineCC_parallel b c *
          (m.p.rho * pi * m.Dint_CC_parallel b c * m.Dint_CC_parallel b c / 4) -
          m.M_lineCC_parallel b c := by linarith
    have h2' : m.V_lineCC_parallel b c *
          (m.p.rho * pi * m.Dint_CC_parallel b c * m.Dint_CC_parallel b c / 4) -
          m.M_lineCC_parallel b c ≤
        m.p.M_bigM * (1 - m.Y_lineCC_parallel b c) := by linarith
    have key := bigM_velocity_flow_gate m.p.M_bigM m.p.V_max m.p.V_min m.p.M_max
      (m.p.rho * pi * m.Dint_CC_parallel b c * m.Dint_CC_parallel b c / 4)
      (m.Y_lineCC_parallel b c) (m.V_lineCC_parallel b c) (m.M_lineCC_parallel b c)
      h1' h2' h3 h4 h5 hV0 hM0
    refine ⟨⟨by linarith, by linarith⟩, h3, h4, h5, fun hY => ?_, key.2⟩
    have := key.1 hY
    linear_combination this
  · intro c hc b hb
    obtain ⟨⟨h1, h2⟩, h3, h4, h5, ⟨hV0, _⟩, ⟨hM0, _⟩⟩ := hCCr c hc b hb
    have h1' : -m.p.M_bigM * (1 - m.Y_lineCC_return c b) ≤
        m.V_lineCC_return c b *
          (m.p.rho * pi * m.Dint_CC_return c b * m.Dint_CC_return c b / 4) -
          m.M_lineCC_return c b := by linarith
    have h2' : m.V_lineCC_return c b *
          (m.p.rho * pi * m.Dint_CC_return c b * m.Dint_CC_return c b / 4) -
          m.M_lineCC_return c b ≤
        m.p.M_bigM * (1 - m.Y_lineCC_return c b) := by linarith
    have key := bigM_velocity_flow_gate m.p.M_bigM m.p.V_max m.p.V_min m.p.M_max
      (m.p.rho * pi * m.Dint_CC_return c b * m.Dint_CC_return c b / 4)
      (m.Y_lineCC_return c b) (m.V_lineCC_return c b) (m.M_lineCC_return c b)
      h1' h2' h3 h4 h5 hV0 hM0
    refine ⟨⟨by linarith, by linarith⟩, h3, h4, h5, fun hY => ?_, key.2⟩
    have := key.1 hY
    linear_combination this

/-- The concrete model point mW satisfies the velocity-flow existence block. -/
theorem mW_pipeExistenceSystem : pipeExistenceSystem mW := by
  refine ⟨?_, ?_, ?_, ?_⟩ <;>
  · intro a _ b _
    refine ⟨⟨?_, ?_⟩, ?_, ?_, ?_, ⟨?_, ?_⟩, ⟨?_, ?_⟩⟩ <;>
      norm_num [mW, defaultParams, Def_V_linePC_rule_bigM, Def_V_lineCP_rule_bigM,
        Def_V_lineCC_parallel_rule_bigM, Def_V_lineCC_return_rule_bigM,
        Ex_V_linePC_max_rule, Ex_V_linePC_min_rule, Ex_V_lineCP_max_rule,
        Ex_V_lineCP_min_rule, Ex_V_lineCC_parallel_max_rule,
        Ex_V_lineCC_parallel_min_rule, Ex_V_lineCC_return_max_rule,
        Ex_V_lineCC_return_min_rule, Ex_M_linePC_max_rule, Ex_M_lineCP_max_rule,
        Ex_M_lineCC_parallel_max_rule, Ex_M_lineCC_return_max_rule,
        V_varBounds, M_varBounds, Params.M_bigM, Params.M_max, M_min, pi]

/-- Witness for claim C1 at the concrete point mW and the pair (P1, C1),
whose existence indicator is 0: velocity and flow are forced to zero. -/
theorem pipe_bigM_velocity_flow_gating_witness :
    pipeExistenceSystem mW ∧ mW.Y_linePC "P1" "C1" = 0 ∧
    mW.V_linePC "P1" "C1" = 0 ∧ mW.M_linePC "P1" "C1" = 0 :=
  ⟨mW_pipeExistenceSystem, rfl,
   ((pipe_bigM_velocity_flow_gating mW mW_pipeExistenceSystem).1 "P1" (by decide)
     "C1" (by decide)).2.2.2.2.2 rfl⟩

/-- Claim C6: at every feasible point, for every consumer j the system
enforces DT1 = T_hx_in - T_req_out, DT2 = T_hx_out - T_req_in, both pinch
lower bounds, and the cube-root surrogate
DTLM = (DT1 * DT2 * 0.5 * (DT1 + DT2)) ^ (1/3). -/
theorem hx_pinch_and_DTLM_surrogate (m : HXModel) (h : hxThermalSystem m) :
    ∀ j ∈ m.j,
      m.DT1 j = m.T_hx_in j - m.T_req_out j ∧
      m.DT2 j = m.T_hx_out j - m.T_req_in j ∧
      m.DT1 j ≥ m.T_hx_pinch ∧
      m.DT2 j ≥ m.T_hx_pinch ∧
      m.DTLM j = (m.DT1 j * m.DT2 j * (0.5 : ℝ) * (m.DT1 j + m.DT2 j)) ^ ((1 : ℝ) / 3) :=
  fun j hj =>
    ⟨h.1 j hj, h.2.1 j hj, h.2.2.1 j hj, h.2.2.2.1 j hj, h.2.2.2.2 j hj⟩

/-- The concrete exchanger point hxW satisfies the thermal block; its DTLM
value is pinned by the cube root of 15 ^ 3. -/
theorem hxW_thermalSystem : hxThermalSystem hxW := by
  refine ⟨fun j _ => ?_, fun j _ => ?_, fun j _ => ?_, fun j _ => ?_, fun j _ => ?_⟩
  · show (15 : ℝ) = 95 - 80
    norm_num
  · show (15 : ℝ) = 75 - 60
    norm_num
  · show (15 : ℝ) ≥ 5
    norm_num
  · show (15 : ℝ) ≥ 5
    norm_num
  · show (15 : ℝ) = (15 * 15 * (0.5 : ℝ) * (15 + 15)) ^ ((1 : ℝ) / 3)
    have h15 : (0 : ℝ) ≤ 15 := by norm_num
    have h3 : (3 : ℕ) ≠ 0 := by norm_num
    have hpow := Real.pow_rpow_inv_natCast h15 h3
    rw [show (15 * 15 * (0.5 : ℝ) * (15 + 15)) = (15 : ℝ) ^ (3 : ℕ) by norm_num,
      show ((1 : ℝ) / 3) = (((3 : ℕ) : ℝ))⁻¹ by norm_num]
    exact hpow.symm

/-- Witness for claim C6 at the concrete point hxW and consumer C1. -/
theorem hx_pinch_and_DTLM_surrogate_witness :
    hxThermalSystem hxW ∧
    hxW.DT1 "C1" ≥ hxW.T_hx_pinch ∧
    hxW.DTLM "C1" =
      (hxW.DT1 "C1" * hxW.DT2 "C1" * (0.5 : ℝ) * (hxW.DT1 "C1" + hxW.DT2 "C1")) ^
        ((1 : ℝ) / 3) :=
  ⟨hxW_thermalSystem,
   (hx_pinch_and_DTLM_surrogate hxW hxW_thermalSystem "C1" (by decide)).2.2.1,
   (hx_pinch_and_DTLM_surrogate hxW hxW_thermalSystem "C1" (by decide)).2.2.2.2⟩

/-- Claim C3 evaluated on the code: with an empty parameter override (and in
general with any override missing a required key) Model.def_problem fails with
a KeyError even though DEFAULT_PARAMETERS supplies every required key; the
default table of defaults.py is never consulted by interface.py or model.py. -/
theorem def_problem_ignores_defaults :
    def_problem_read_params (define_problem_general_parameters none) = none ∧
    (def_problem_required_keys.all
      fun k => (alookup DEFAULT_PARAMETERS k).isSome) = true ∧
    alookup DEFAULT_PARAMETERS "C_tr_unit" = some 800 :=
  ⟨rfl, rfl, rfl⟩

/-- Claim C2 evaluated on the code: on the scenario A input,
JSONInterface.solve raises a TypeError (the problem dict built by
_define_problem has no technologies key, which Model.__init__ requires) and,
in general, never returns a status at all. -/
theorem JSONInterface_solve_scenarioA_raises :
    JSONInterface_solve scenarioA =
      .raised "TypeError: Model.__init__ missing 1 required positional argument: technologies" ∧
    ∀ input : JSONInput, ∀ s, JSONInterface_solve input ≠ .returned s := by
  refine ⟨rfl, ?_⟩
  intro input s
  unfold JSONInterface_solve
  cases JSONInterface_define_problem input with
  | error e => simp
  | ok p =>
    have hkw : Model_kwargs_call_ok = false := rfl
    simp [hkw]

/-- Association lookup commutes with key transposition: looking up (b, a) in a
key-transposed table is looking up (a, b) in the original table. -/
theorem alookup_transpose (l : List ((String × String) × ℚ)) (a b : String) :
    alookup (l.map fun e => ((e.1.2, e.1.1), e.2)) (b, a) = alookup l (a, b) := by
  induction l with
  | nil => rfl
  | cons e rest ih =>
    obtain ⟨⟨x, y⟩, v⟩ := e
    simp only [List.map_cons, alookup, Prod.mk.injEq]
    by_cases h1 : y = b
    · by_cases h2 : x = a
      · simp [h1, h2]
      · simp [h1, h2, ih]
    · simp [h1, ih]

/-- Claim C4 counterexample: on the configuration of tests/test_model.py,
whose prod_cons_pipes entry for (P1, C1) is the length 10, def_configuration
sets the existence Param Y_linePC[P1, C1] to the raw value 10, not to the
indicator 1 the claim prescribes for a strictly positive length. -/
theorem Y_linePC_raw_length_counterexample :
    alookup (table_Y_linePC testConfiguration) ("P1", "C1") = some 10 ∧
    ¬ alookup (table_Y_linePC testConfiguration) ("P1", "C1") = some 1 := by
  refine ⟨rfl, ?_⟩
  intro h
  simp [table_Y_linePC, testConfiguration, alookup] at h

/-- Claim C4 (amended): def_configuration uses the supplied prod_cons_pipes
and cons_cons_pipes values verbatim as the forward existence tables (no
1-if-positive derivation), and the return-leg tables (CP and CC-return) are
exactly the key transposes of the corresponding forward tables. -/
theorem configuration_tables_verbatim_and_transposed (c : Configuration) :
    table_Y_linePC c = c.prod_cons_pipes ∧
    table_Y_lineCC_parallel c = c.cons_cons_pipes ∧
    (∀ a b, alookup (table_Y_lineCP c) (b, a) = alookup (table_Y_linePC c) (a, b)) ∧
    (∀ a b,
      alookup (table_Y_lineCC_return c) (b, a) =
        alookup (table_Y_lineCC_parallel c) (a, b)) :=
  ⟨rfl, rfl, fun a b => alookup_transpose (table_Y_linePC c) a b,
   fun a b => alookup_transpose (table_Y_lineCC_parallel c) a b⟩

/-- A successful association lookup means the key is among the table keys. -/
theorem alookup_isSome_mem_keys {κ : Type} [DecidableEq κ] (l : List (κ × ℚ)) (k : κ)
    (h : (alookup l k).isSome = true) : k ∈ l.map (fun e => e.1) := by
  induction l with
  | nil => simp [alookup] at h
  | cons e rest ih =>
    obtain ⟨k', v⟩ := e
    simp only [alookup] at h
    by_cases he : k' = k
    · simp [he]
    · rw [if_neg he] at h
      simp [ih h]

/-- The keys of the hardcoded table_L_PC are (P1, C1) and (P1, C2). -/
theorem alookup_table_L_PC_isSome (a b : String)
    (h : (alookup table_L_PC (a, b)).isSome = true) :
    a = "P1" ∧ (b = "C1" ∨ b = "C2") := by
  have hmem := alookup_isSome_mem_keys table_L_PC (a, b) h
  simp [table_L_PC, Prod.ext_iff] at hmem
  tauto

/-- The keys of the hardcoded table_L_CC_parallel are the pairs over C1, C2. -/
theorem alookup_table_L_CC_parallel_isSome (a b : String)
    (h : (alookup table_L_CC_parallel (a, b)).isSome = true) :
    (a = "C1" ∨ a = "C2") ∧ (b = "C1" ∨ b = "C2") := by
  have hmem := alookup_isSome_mem_keys table_L_CC_parallel (a, b) h
  simp [table_L_CC_parallel, Prod.ext_iff] at hmem
  tauto

/-- Successful assembly of the hardcoded length Params and the constraints
reading them forces the index sets: the producer set is exactly P1 and both
consumer roles are exactly C1, C2. -/
theorem L_assembly_forces_index_sets (i j o : List String)
    (h : L_assembly_ok i j o = true) :
    (∀ x, x ∈ i ↔ x = "P1") ∧
    (∀ x, x ∈ j ↔ (x = "C1" ∨ x = "C2")) ∧
    (∀ x, x ∈ o ↔ (x = "C1" ∨ x = "C2")) := by
  simp only [L_assembly_ok, Bool.and_eq_true] at h
  obtain ⟨⟨⟨⟨⟨⟨⟨hInitPC, hCovPC⟩, _⟩, _⟩, hInitCCp⟩, hCovCCp⟩, _⟩, _⟩ := h
  simp [paramInitOk, table_L_PC] at hInitPC
  simp [paramInitOk, table_L_CC_parallel] at hInitCCp
  simp only [paramCovers, List.all_eq_true] at hCovPC hCovCCp
  have hP1i : "P1" ∈ i := by tauto
  have hC1j : "C1" ∈ j := by tauto
  have hC2j : "C2" ∈ j := by tauto
  have hC1o : "C1" ∈ o := by tauto
  have hC2o : "C2" ∈ o := by tauto
  refine ⟨fun x => ⟨fun hx => ?_, fun hx => hx ▸ hP1i⟩,
          fun x => ⟨fun hx => ?_, fun hx => ?_⟩,
          fun x => ⟨fun hx => ?_, fun hx => ?_⟩⟩
  · exact (alookup_table_L_PC_isSome x "C1" (hCovPC x hx "C1" hC1j)).1
  · exact (alookup_table_L_PC_isSome "P1" x (hCovPC "P1" hP1i x hx)).2
  · cases hx with
    | inl hx => exact hx ▸ hC1j
    | inr hx => exact hx ▸ hC2j
  · exact (alookup_table_L_CC_parallel_isSome "C1" x (hCovCCp "C1" hC1j x hx)).2
  · cases hx with
    | inl hx => exact hx ▸ hC1o
    | inr hx => exact hx ▸ hC2o

/-- Claim C5: the four length tables used by the pipe-cost, trench-cost and
total-length constraints are the fixed literals of def_problem, independent of
the configuration (the user-supplied pipe lengths); and assembling the length
Params and the constraints that read them succeeds only when the producer
index set is exactly P1 and the consumer index sets are exactly C1, C2. -/
theorem L_tables_hardcoded (cfg cfg' : Configuration) (i j o : List String)
    (h : L_assembly_ok i j o = true) :
    def_problem_table_L_PC cfg = table_L_PC ∧
    def_problem_table_L_CP cfg = table_L_CP ∧
    def_problem_table_L_CC_parallel cfg = table_L_CC_parallel ∧
    def_problem_table_L_CC_return cfg = table_L_CC_return ∧
    def_problem_table_L_PC cfg = def_problem_table_L_PC cfg' ∧
    def_problem_table_L_CP cfg = def_problem_table_L_CP cfg' ∧
    def_problem_table_L_CC_parallel cfg = def_problem_table_L_CC_parallel cfg' ∧
    def_problem_table_L_CC_return cfg = def_problem_table_L_CC_return cfg' ∧
    (∀ x, x ∈ i ↔ x = "P1") ∧
    (∀ x, x ∈ j ↔ (x = "C1" ∨ x = "C2")) ∧
    (∀ x, x ∈ o ↔ (x = "C1" ∨ x = "C2")) ∧
    (∀ L_tot : ℚ,
      Ex_L_tot_rule ["P1"] ["C1", "C2"] ["C1", "C2"] cfg L_tot → L_tot = 220) ∧
    (∀ L_tot : ℚ,
      Ex_L_tot_rule ["P1"] ["C1", "C2"] ["C1", "C2"] cfg L_tot ↔
        Ex_L_tot_rule ["P1"] ["C1", "C2"] ["C1", "C2"] cfg' L_tot) := by
  obtain ⟨hi, hj, ho⟩ := L_assembly_forces_index_sets i j o h
  refine ⟨rfl, rfl, rfl, rfl, rfl, rfl, rfl, rfl, hi, hj, ho, fun L hL => ?_,
    fun L => Iff.rfl⟩
  rw [hL]
  norm_num [Ex_L_tot_rule, def_problem_table_L_PC, def_problem_table_L_CP,
    def_problem_table_L_CC_parallel, def_problem_table_L_CC_return,
    table_L_PC, table_L_CP, table_L_CC_parallel, table_L_CC_return, alookup,
    show ("C1" : String) ≠ "C2" by decide, show ("C2" : String) ≠ "C1" by decide]

/-- Witness for claim C5 at the index sets of the hardcoded tables. -/
theorem L_tables_hardcoded_witness :
    L_assembly_ok ["P1"] ["C1", "C2"] ["C1", "C2"] = true ∧
    (("C2" : String) ∈ ["C1", "C2"] ↔
      (("C2" : String) = "C1" ∨ ("C2" : String) = "C2")) :=
  ⟨by decide,
   (L_tables_hardcoded testConfiguration ⟨[], [], []⟩ ["P1"] ["C1", "C2"]
     ["C1", "C2"] (by decide)).2.2.2.2.2.2.2.2.2.2.1 "C2"⟩

end PyODHEAN
